import Mathlib

/-!
# Verification of the telegram-channel-id-bot core

Shallow embedding of the bot's rate limiter (`src/utils/rate-limiter.ts`),
command router (`src/commands/command-router.ts`), security service
(`src/services/security-service.ts`) and security middleware
(`src/middleware/security-middleware.ts`), together with theorems settling
the frozen claims about them.

JavaScript conventions are embedded explicitly: optional values are
`Option`, JavaScript truthiness tests on numbers (`if (x)`) check both
presence and being nonzero, timestamps are `Int` milliseconds, and the
`Map` objects are modelled as association lists with insertion-order
iteration (matching the iteration order of a JavaScript `Map`).
-/

namespace Bot

/-- JavaScript truthiness of an optional number: `undefined` and `0` are falsy. -/
def truthyInt : Option Int → Bool
  | none => false
  | some v => v != 0

/-- JavaScript truthiness of an optional string: `undefined` and `""` are falsy. -/
def truthyStr : Option String → Bool
  | none => false
  | some s => s != ""

/-- `Math.ceil(d / 1000)` for nonnegative `d` (the only way the source uses it). -/
def ceilSeconds (d : Int) : Int := (d + 999) / 1000

/-! ## Rate limiter (`src/utils/rate-limiter.ts`) -/

/-- `RateLimitEntry` from `rate-limiter.ts`: per-subject counters. -/
structure RateLimitEntry where
  count : Nat
  resetTime : Int
  penaltyExpires : Option Int := none
  penaltyCount : Option Nat := none
deriving Repr, DecidableEq

/-- `RateLimitConfig` from `rate-limiter.ts` (after the constructor's defaulting,
every field is present; `penaltyTime` keeps its `Option` because the code tests
its JavaScript truthiness). -/
structure RateLimitConfig where
  maxRequests : Nat
  timeWindow : Int
  penaltyTime : Option Int := none
  useProgressivePenalty : Bool := false
deriving Repr, DecidableEq

/-- `RateLimitResult`: the object returned by `checkRateLimit`. -/
structure RateLimitResult where
  isLimited : Bool
  remainingTime : Option Int := none
  reason : Option String := none
deriving Repr, DecidableEq

/-- The two `Map`s held by a `RateLimiter` instance, as key-indexed functions. -/
structure RateLimiterState where
  userLimits : Int → Option RateLimitEntry
  chatLimits : Int → Option RateLimitEntry

/-- A fresh `RateLimiter`: both maps empty. -/
def emptyState : RateLimiterState :=
  { userLimits := fun _ => none, chatLimits := fun _ => none }

/-- Functional update of the user map (`this.userLimits.set(userId, e)`). -/
def setUser (st : RateLimiterState) (userId : Int) (e : RateLimitEntry) : RateLimiterState :=
  { st with userLimits := fun u => if u = userId then some e else st.userLimits u }

/-- Functional update of the chat map (`this.chatLimits.set(chatId, e)`). -/
def setChat (st : RateLimiterState) (chatId : Int) (e : RateLimitEntry) : RateLimiterState :=
  { st with chatLimits := fun c => if c = chatId then some e else st.chatLimits c }

/-- `RateLimiter.clearUserLimit`: delete the user's entry. -/
def clearUserLimit (st : RateLimiterState) (userId : Int) : RateLimiterState :=
  { st with userLimits := fun u => if u = userId then none else st.userLimits u }

/-- `userEntry?.penaltyExpires && now < userEntry.penaltyExpires`: the penalty
gate in `checkUserLimit`, including the JavaScript truthiness of `penaltyExpires`. -/
def penaltyActive (e : RateLimitEntry) (now : Int) : Bool :=
  match e.penaltyExpires with
  | none => false
  | some p => p != 0 && now < p

/-- `RateLimiter.applyPenalty`: arm (or escalate) a penalty for `userId`.
Mutates only that user's entry; a missing entry or falsy `penaltyTime` is a no-op. -/
def applyPenalty (st : RateLimiterState) (userId : Int) (now : Int)
    (config : RateLimitConfig) : RateLimiterState :=
  match st.userLimits userId with
  | none => st
  | some e =>
    if truthyInt config.penaltyTime then
      let penaltyCount := (e.penaltyCount.getD 0) + 1
      let base := config.penaltyTime.getD 0
      let penaltyDuration :=
        if config.useProgressivePenalty && penaltyCount > 1 then
          base * (min penaltyCount 5 : Nat)
        else base
      setUser st userId
        { e with penaltyExpires := some (now + penaltyDuration), penaltyCount := some penaltyCount }
    else st

/-- `RateLimiter.checkUserLimit`: penalty gate, then window gate (arming a
penalty on a `rate_limit` trip when `penaltyTime` is truthy). Returns the
result together with the possibly-updated state. -/
def checkUserLimit (st : RateLimiterState) (userId : Int) (now : Int)
    (config : RateLimitConfig) : RateLimitResult × RateLimiterState :=
  match st.userLimits userId with
  | none => ({ isLimited := false }, st)
  | some e =>
    if penaltyActive e now then
      ({ isLimited := true
         remainingTime := some (ceilSeconds (e.penaltyExpires.getD 0 - now))
         reason := some "penalty" }, st)
    else if now < e.resetTime && e.count ≥ config.maxRequests then
      let st' := if truthyInt config.penaltyTime then applyPenalty st userId now config else st
      ({ isLimited := true
         remainingTime := some (ceilSeconds (e.resetTime - now))
         reason := some "rate_limit" }, st')
    else ({ isLimited := false }, st)

/-- `RateLimiter.checkChatLimit`: pure check of the chat window against
`5 × maxRequests`. -/
def checkChatLimit (st : RateLimiterState) (chatId : Int) (now : Int)
    (config : RateLimitConfig) : RateLimitResult :=
  match st.chatLimits chatId with
  | none => { isLimited := false }
  | some e =>
    if now < e.resetTime && e.count ≥ config.maxRequests * 5 then
      { isLimited := true
        remainingTime := some (ceilSeconds (e.resetTime - now))
        reason := some "chat_limit" }
    else { isLimited := false }

/-- `RateLimiter.updateUserLimit`: initialize/reset the window, or bump `count`
in place (preserving the penalty fields). -/
def updateUserLimit (st : RateLimiterState) (userId : Int) (now : Int)
    (config : RateLimitConfig) : RateLimiterState :=
  match st.userLimits userId with
  | none => setUser st userId { count := 1, resetTime := now + config.timeWindow }
  | some e =>
    if now ≥ e.resetTime then
      setUser st userId { count := 1, resetTime := now + config.timeWindow }
    else
      setUser st userId { e with count := e.count + 1 }

/-- `RateLimiter.updateChatLimit`: same shape as `updateUserLimit` on the chat map. -/
def updateChatLimit (st : RateLimiterState) (chatId : Int) (now : Int)
    (config : RateLimitConfig) : RateLimiterState :=
  match st.chatLimits chatId with
  | none => setChat st chatId { count := 1, resetTime := now + config.timeWindow }
  | some e =>
    if now ≥ e.resetTime then
      setChat st chatId { count := 1, resetTime := now + config.timeWindow }
    else
      setChat st chatId { e with count := e.count + 1 }

/-- `RateLimiter.checkRateLimit(userId, chatId?, …)` at time `now`: user gate,
then (when `chatId` is truthy) chat gate, then record the request in both maps.
`chatId = some 0` is skipped exactly like `none` (`if (chatId)`). -/
def checkRateLimit (st : RateLimiterState) (userId : Int) (chatId : Option Int)
    (now : Int) (config : RateLimitConfig) : RateLimitResult × RateLimiterState :=
  let userStep := checkUserLimit st userId now config
  if userStep.1.isLimited then userStep
  else
    let chatResult :=
      if truthyInt chatId then checkChatLimit st chatId.iget now config
      else { isLimited := false }
    if chatResult.isLimited then (chatResult, st)
    else
      let st2 := updateUserLimit st userId now config
      let st3 := if truthyInt chatId then updateChatLimit st2 chatId.iget now config else st2
      ({ isLimited := false }, st3)

/-- One call of a request trace: `(userId, chatId?, now)`. -/
structure Call where
  userId : Int
  chatId : Option Int
  now : Int
deriving Repr, DecidableEq

/-- Run a sequence of `checkRateLimit` calls under one fixed config, collecting
every result (the limiter driven by its `globalConfig`). -/
def runCalls (config : RateLimitConfig) (st : RateLimiterState) :
    List Call → List RateLimitResult × RateLimiterState
  | [] => ([], st)
  | c :: cs =>
    let step := checkRateLimit st c.userId c.chatId c.now config
    let rest := runCalls config step.2 cs
    (step.1 :: rest.1, rest.2)

/-! ## Telegram context objects

The slice of the Telegraf context the verified code reads: message text,
chat, sender, and the two Telegram API capabilities (`telegram.getMe`,
`telegram.getChatMember`).  A capability that is `none` is absent on the
context; `Except.error` models the call throwing. -/

/-- `ctx.chat`: chat id plus chat type (optional, to model an absent `type`). -/
structure Chat where
  id : Int
  type : Option String
deriving Repr, DecidableEq

/-- `ctx.from`: the sender; only its `id` is read by the verified code. -/
structure User where
  id : Int
deriving Repr, DecidableEq

/-- `getChatMember` result: only `status` is read. -/
structure ChatMember where
  status : String
deriving Repr, DecidableEq

/-- The incoming context.  `fromUser` embeds `ctx.from` (`from` is reserved
in Lean). -/
structure Ctx where
  messageText : Option String := none
  chat : Option Chat := none
  fromUser : Option User := none
  telegramGetMe : Option (Except Unit Int) := none
  telegramGetChatMember : Option (Int → Int → Except Unit ChatMember) := none

/-! ## Security service (`src/services/security-service.ts`) -/

namespace SecurityService

/-- `SecurityService.ALLOWED_CHAT_TYPES`. -/
def ALLOWED_CHAT_TYPES : List String := ["private", "group", "supergroup", "channel"]

/-- `SecurityService.getBotInfo`: `telegram.getMe()` behind a try/catch; an
absent capability or a throw yields `null`. -/
def getBotInfo (ctx : Ctx) : Option Int :=
  match ctx.telegramGetMe with
  | none => none
  | some (.ok botId) => some botId
  | some (.error _) => none

/-- `SecurityService.getBotChatMember`: guarded by `!chatId ||
!ctx.telegram?.getChatMember` (a chat id of `0` is falsy), with the lookup's
throw caught and turned into `null`. -/
def getBotChatMember (ctx : Ctx) (userId : Int) : Option ChatMember :=
  match ctx.chat with
  | none => none
  | some chat =>
    if chat.id = 0 then none
    else
      match ctx.telegramGetChatMember with
      | none => none
      | some lookup =>
        match lookup chat.id userId with
        | .ok member => some member
        | .error _ => none

/-- `SecurityService.checkGroupPermissions`: the bot's own membership status
must be one of member/administrator/creator; every failure resolves to false. -/
def checkGroupPermissions (ctx : Ctx) : Bool :=
  match getBotInfo ctx with
  | none => false
  | some botId =>
    match getBotChatMember ctx botId with
    | none => false
    | some chatMember => ["member", "administrator", "creator"].contains chatMember.status

/-- `SecurityService.checkChannelPermissions`: in channels the bot must be
administrator or creator; every failure resolves to false. -/
def checkChannelPermissions (ctx : Ctx) : Bool :=
  match getBotInfo ctx with
  | none => false
  | some botId =>
    match getBotChatMember ctx botId with
    | none => false
    | some chatMember =>
      chatMember.status = "administrator" || chatMember.status = "creator"

/-- `SecurityService.checkBotPermissions`: fail closed on missing chat info
(`!chatType || !chatId`, so an empty type string or chat id `0` also fails),
`private` always passes, group/supergroup and channel delegate, any other chat
type returns false. -/
def checkBotPermissions (ctx : Ctx) : Bool :=
  match ctx.chat with
  | none => false
  | some chat =>
    match chat.type with
    | none => false
    | some chatType =>
      if chatType = "" then false
      else if chat.id = 0 then false
      else if chatType = "private" then true
      else if chatType = "group" || chatType = "supergroup" then checkGroupPermissions ctx
      else if chatType = "channel" then checkChannelPermissions ctx
      else false

/-- `SecurityService.validateChatType`: fail closed on a missing (or empty,
falsy) chat type, otherwise membership in `allowedTypes || ALLOWED_CHAT_TYPES`. -/
def validateChatType (ctx : Ctx) (allowedTypes : Option (List String)) : Bool :=
  match ctx.chat with
  | none => false
  | some chat =>
    match chat.type with
    | none => false
    | some chatType =>
      if chatType = "" then false
      else
        let typesToCheck := allowedTypes.getD ALLOWED_CHAT_TYPES
        typesToCheck.contains chatType

/-- `SecurityService.checkUserAdminPermissions`: target defaults to the sender
(`userId || ctx.from?.id`, so `0` falls back too); missing target/chat info
fails closed; `private` is always admin; otherwise the member status must be
administrator or creator, with lookup failure resolving to false. -/
def checkUserAdminPermissions (ctx : Ctx) (userId : Option Int) : Bool :=
  let targetUserId : Option Int :=
    match userId with
    | some uid => if uid ≠ 0 then some uid else ctx.fromUser.map User.id
    | none => ctx.fromUser.map User.id
  match targetUserId, ctx.chat with
  | some target, some chat =>
    match chat.type with
    | none => false
    | some chatType =>
      if target = 0 then false
      else if chatType = "" then false
      else if chat.id = 0 then false
      else if chatType = "private" then true
      else
        match getBotChatMember ctx target with
        | none => false
        | some chatMember => ["administrator", "creator"].contains chatMember.status
  | _, _ => false

end SecurityService

/-! ## Security middleware (`src/middleware/security-middleware.ts`) -/

/-- `SecurityMiddlewareConfig` (after the constructor's defaulting). -/
structure SecurityMiddlewareConfig where
  rateLimiting : Option RateLimitConfig := none
  checkBotPermissions : Bool := true
  validateChatTypes : Bool := true
  allowedChatTypes : Option (List String) := none
  requireAdmin : Bool := false

namespace SecurityMiddleware

/-- `SecurityMiddleware.checkRateLimit`: with a missing (or `0`, falsy) sender
id the check is skipped — `{ blocked: false }` and no limiter mutation;
otherwise the `RateLimiter` decides and blocks iff it limits. -/
def checkRateLimit (ctx : Ctx) (now : Int) (rateCfg : RateLimitConfig)
    (st : RateLimiterState) : Bool × RateLimiterState :=
  match ctx.fromUser with
  | none => (false, st)
  | some user =>
    if user.id = 0 then (false, st)
    else
      let chatId : Option Int := ctx.chat.map Chat.id
      let result := Bot.checkRateLimit st user.id chatId now rateCfg
      (result.1.isLimited, result.2)

/-- `SecurityMiddleware.checkAdminPermissions`: delegates to the security
service with the sender as target. -/
def checkAdminPermissions (ctx : Ctx) : Bool :=
  SecurityService.checkUserAdminPermissions ctx none

/-- The decision core of `SecurityMiddleware.createMiddleware`: run the four
checks in order, short-circuiting at the first failure.  Returns whether
control reaches `next()` together with the limiter state (replies and logging
are external effects and carry no information back into the pipeline). -/
def createMiddleware (config : SecurityMiddlewareConfig) (ctx : Ctx) (now : Int)
    (st : RateLimiterState) : Bool × RateLimiterState :=
  let rateStep :=
    match config.rateLimiting with
    | some rateCfg => checkRateLimit ctx now rateCfg st
    | none => (false, st)
  if rateStep.1 then (false, rateStep.2)
  else if config.validateChatTypes
      && ! SecurityService.validateChatType ctx config.allowedChatTypes then
    (false, rateStep.2)
  else if config.checkBotPermissions && ! SecurityService.checkBotPermissions ctx then
    (false, rateStep.2)
  else if config.requireAdmin && ! checkAdminPermissions ctx then
    (false, rateStep.2)
  else (true, rateStep.2)

end SecurityMiddleware

/-! ## Command router (`src/commands/command-router.ts`) -/

/-- JavaScript `toLowerCase` restricted to the ASCII range the command
alphabet `[a-zA-Z0-9_]` lives in. -/
def jsToLower (s : String) : String := ⟨s.data.map Char.toLower⟩

/-- One character of the regex class `[a-zA-Z0-9_]`. -/
def isWordChar (ch : Char) : Bool :=
  ('a' ≤ ch && ch ≤ 'z') || ('A' ≤ ch && ch ≤ 'Z') || ('0' ≤ ch && ch ≤ '9') || ch = '_'

/-- `message.startsWith("/")`. -/
def jsStartsWithSlash (m : String) : Bool :=
  match m.data with
  | ch :: _ => ch = '/'
  | [] => false

/-- `CommandRouter.extractCommand`: falsy or non-`/` text is not a command;
otherwise match `^\/([a-zA-Z0-9_]+)(?:@\w+)?` and lowercase the captured name
(the capture group is the maximal word-character run after the slash, so a
`@botname` suffix and trailing arguments are dropped). -/
def extractCommand (messageText : Option String) : Option String :=
  match messageText with
  | none => none
  | some m =>
    if m = "" then none
    else if ! jsStartsWithSlash m then none
    else
      let token := (m.data.drop 1).takeWhile isWordChar
      if token.isEmpty then none else some (jsToLower ⟨token⟩)

/-- `CommandRegistration` from `command-router.ts`, with handlers as opaque
identity tokens (`Nat`): alias entries share the handler value exactly like
the source shares the handler function reference. -/
structure CommandRegistration where
  command : String
  handler : Nat
  description : Option String := none
  aliases : Option (List String) := none
  requiresAdmin : Bool := false
  allowedChatTypes : Option (List String) := none
deriving Repr, DecidableEq

/-- The router's `commands: Map<string, CommandRegistration>`, as an
association list in insertion order (JavaScript `Map` iteration order). -/
abbrev Registry := List (String × CommandRegistration)

/-- `Map.has`. -/
def mapHas (m : Registry) (k : String) : Bool := m.any (fun p => p.1 == k)

/-- `Map.get`. -/
def mapGet (m : Registry) (k : String) : Option CommandRegistration :=
  (m.find? (fun p => p.1 == k)).map Prod.snd

/-- `Map.set`: replace in place when the key exists (keeping its position),
else append. -/
def mapSet (m : Registry) (k : String) (v : CommandRegistration) : Registry :=
  if mapHas m k then m.map (fun p => if p.1 == k then (k, v) else p) else m ++ [(k, v)]

/-- `name.toLowerCase().replace(/^\//, "")`: lowercase, then strip one
leading slash. -/
def normalizeName (s : String) : String :=
  let lower := jsToLower s
  match lower.data with
  | '/' :: rest => ⟨rest⟩
  | _ => lower

/-- `CommandRouter.registerCommand`: throws when `command` is falsy, else
stores the normalized name and then every normalized alias, each entry a copy
of the registration with its own stored name. -/
def registerCommand (m : Registry) (reg : CommandRegistration) :
    Except String Registry :=
  if reg.command = "" then .error "Command and handler are required for registration"
  else
    let commandName := normalizeName reg.command
    let m1 := mapSet m commandName { reg with command := commandName }
    let m2 :=
      match reg.aliases with
      | none => m1
      | some aliasList =>
        aliasList.foldl (fun acc a =>
          let normalizedAlias := normalizeName a
          mapSet acc normalizedAlias { reg with command := normalizedAlias }) m1
    .ok m2

/-- `CommandRouter.getRegisteredCommands`: first-wins de-duplication keyed by
each entry's stored `command` field, in map iteration order. -/
def getRegisteredCommands (m : Registry) : List CommandRegistration :=
  let uniqueCommands := m.foldl (fun acc p =>
    if acc.any (fun q => q.1 == p.2.command) then acc
    else acc ++ [(p.2.command, p.2)]) ([] : Registry)
  uniqueCommands.map Prod.snd

/-- `CommandRouter.isCommandRegistered`. -/
def isCommandRegistered (m : Registry) (command : String) : Bool :=
  mapHas m (normalizeName command)

/-- Handler identity of the `/chatid` handler closure. -/
def chatIdHandlerId : Nat := 0
/-- Handler identity of the `/info` handler closure. -/
def infoHandlerId : Nat := 1
/-- Handler identity of the `/help` handler closure. -/
def helpHandlerId : Nat := 2
/-- Handler identity of the `/start` handler closure. -/
def startHandlerId : Nat := 3

/-- The `/chatid` built-in registration (aliases `id` and `chatid`). -/
def chatidRegistration : CommandRegistration :=
  { command := "chatid", handler := chatIdHandlerId,
    description := some "get chat id", aliases := some ["id", "chatid"],
    allowedChatTypes := some ["private", "group", "supergroup", "channel"] }

/-- The `/info` built-in registration. -/
def infoRegistration : CommandRegistration :=
  { command := "info", handler := infoHandlerId,
    description := some "get chat details",
    allowedChatTypes := some ["private", "group", "supergroup", "channel"] }

/-- The `/help` built-in registration (alias `h`). -/
def helpRegistration : CommandRegistration :=
  { command := "help", handler := helpHandlerId,
    description := some "show help", aliases := some ["h"],
    allowedChatTypes := some ["private", "group", "supergroup", "channel"] }

/-- The `/start` built-in registration. -/
def startRegistration : CommandRegistration :=
  { command := "start", handler := startHandlerId,
    description := some "welcome",
    allowedChatTypes := some ["private", "group", "supergroup", "channel"] }

/-- `CommandRouter.registerDefaultCommands` applied to a registry. -/
def registerDefaultCommands (m : Registry) : Except String Registry :=
  (registerCommand m chatidRegistration).bind fun m1 =>
  (registerCommand m1 infoRegistration).bind fun m2 =>
  (registerCommand m2 helpRegistration).bind fun m3 =>
  registerCommand m3 startRegistration

/-- The registry a freshly constructed `CommandRouter` holds. -/
def defaultRegistry : Registry :=
  match registerDefaultCommands [] with
  | .ok m => m
  | .error _ => []

/-- `CommandRouter.validateCommandContext`: when both `allowedChatTypes` and
`ctx.chat` are present, the chat type must be listed (an absent type is never
listed); otherwise the context is valid.  The `requiresAdmin` branch of the
source is an empty placeholder. -/
def validateCommandContext (ctx : Ctx) (registration : CommandRegistration) : Bool :=
  match registration.allowedChatTypes, ctx.chat with
  | some allowed, some chat =>
    match chat.type with
    | some chatType => allowed.contains chatType
    | none => false
  | _, _ => true

/-- What `CommandRouter.routeCommand` decides to do with a message. -/
inductive RouteAction where
  | ignore
  | unknownCommand (command : String)
  | invalidContext (registration : CommandRegistration)
  | execute (registration : CommandRegistration)
deriving Repr, DecidableEq

/-- `CommandRouter.routeCommand`: extract, look up (lowercased), validate
context, then hand off — `ignore` sends no reply and invokes no handler. -/
def routeCommand (registry : Registry) (ctx : Ctx) : RouteAction :=
  match extractCommand ctx.messageText with
  | none => .ignore
  | some command =>
    match mapGet registry (jsToLower command) with
    | none => .unknownCommand command
    | some registration =>
      if validateCommandContext ctx registration then .execute registration
      else .invalidContext registration

/-- The handler identity a routing decision would invoke (`none` when no
handler runs). -/
def routeHandler : RouteAction → Option Nat
  | .execute registration => some registration.handler
  | _ => none

/-- The optional chat key `c`, when it is truthy (present and nonzero), maps to
entry `e` in the chat map. -/
def chatSync (c : Option Int) (st : RateLimiterState) (e : RateLimitEntry) : Prop :=
  ∀ x, c = some x → x ≠ 0 → st.chatLimits x = some e

/-- Every stored user count is at most `n` and every stored chat count at most
`5 × n`. -/
def countsBounded (n : Nat) (st : RateLimiterState) : Prop :=
  (∀ u e, st.userLimits u = some e → e.count ≤ n) ∧
  (∀ c e, st.chatLimits c = some e → e.count ≤ 5 * n)

/-- The two maps of `st'` carry exactly the counts of `st` (entry for entry). -/
def countsPreserved (st st' : RateLimiterState) : Prop :=
  (∀ u, (st'.userLimits u).map RateLimitEntry.count =
    (st.userLimits u).map RateLimitEntry.count) ∧
  (∀ c, (st'.chatLimits c).map RateLimitEntry.count =
    (st.chatLimits c).map RateLimitEntry.count)

lemma chatSync_none (st : RateLimiterState) (e : RateLimitEntry) : chatSync none st e := by
  intro x hx
  cases hx

/-- One allowed call: a user below its cap inside the window, with the chat
counter equal to the user's (both below `maxRequests ≤ 5 × maxRequests`),
passes both gates and bumps both counters. -/
lemma step_allowed (cfg : RateLimitConfig) (u : Int) (c : Option Int) (t : Int)
    (k : Nat) (R : Int) (st : RateLimiterState)
    (hu : st.userLimits u = some ⟨k, R, none, none⟩)
    (hc : chatSync c st ⟨k, R, none, none⟩)
    (hk : k < cfg.maxRequests) (ht : t < R) :
    (checkRateLimit st u c t cfg).1 = { isLimited := false } ∧
    (checkRateLimit st u c t cfg).2.userLimits u = some ⟨k + 1, R, none, none⟩ ∧
    chatSync c (checkRateLimit st u c t cfg).2 ⟨k + 1, R, none, none⟩ := by
  have hknot : ¬ (k ≥ cfg.maxRequests) := not_le.mpr hk
  have hk5 : ¬ (k ≥ cfg.maxRequests * 5) := by omega
  have htnot : ¬ (t ≥ R) := not_le.mpr ht
  match c with
  | none =>
    refine ⟨?_, ?_, chatSync_none _ _⟩ <;>
      simp [checkRateLimit, checkUserLimit, checkChatLimit, penaltyActive, truthyInt,
        updateUserLimit, updateChatLimit, setUser, setChat, hu, hknot, htnot]
  | some x =>
    by_cases hx : x = 0
    · subst hx
      refine ⟨?_, ?_, ?_⟩
      · simp [checkRateLimit, checkUserLimit, checkChatLimit, penaltyActive, truthyInt,
          updateUserLimit, updateChatLimit, setUser, setChat, hu, hknot, htnot]
      · simp [checkRateLimit, checkUserLimit, checkChatLimit, penaltyActive, truthyInt,
          updateUserLimit, updateChatLimit, setUser, setChat, hu, hknot, htnot]
      · intro y hy hy0
        cases hy
        exact absurd rfl hy0
    · have hcx := hc x rfl hx
      refine ⟨?_, ?_, ?_⟩
      · simp [checkRateLimit, checkUserLimit, checkChatLimit, penaltyActive, truthyInt,
          updateUserLimit, updateChatLimit, setUser, setChat, hu, hcx, hknot, htnot, hk5, hx]
      · simp [checkRateLimit, checkUserLimit, checkChatLimit, penaltyActive, truthyInt,
          updateUserLimit, updateChatLimit, setUser, setChat, hu, hcx, hknot, htnot, hk5, hx]
      · intro y hy hy0
        cases hy
        simp [checkRateLimit, checkUserLimit, checkChatLimit, penaltyActive, truthyInt,
          updateUserLimit, updateChatLimit, setUser, setChat, hu, hcx, hknot, htnot, hk5, hx]

/-- Iterated form of `step_allowed`: a run of in-window calls by one user into
one chat, starting with both counters at `k` with room for the whole run, is
fully allowed and raises both counters by the length of the run. -/
lemma runCalls_allowed (cfg : RateLimitConfig) (u : Int) (c : Option Int)
    (ts : List Int) (k : Nat) (R : Int) (st : RateLimiterState)
    (hu : st.userLimits u = some ⟨k, R, none, none⟩)
    (hc : chatSync c st ⟨k, R, none, none⟩)
    (hk : k + ts.length ≤ cfg.maxRequests)
    (hts : ∀ t ∈ ts, t < R) :
    (runCalls cfg st (ts.map fun t => ⟨u, c, t⟩)).1 =
      List.replicate ts.length { isLimited := false } ∧
    (runCalls cfg st (ts.map fun t => ⟨u, c, t⟩)).2.userLimits u =
      some ⟨k + ts.length, R, none, none⟩ ∧
    chatSync c (runCalls cfg st (ts.map fun t => ⟨u, c, t⟩)).2 ⟨k + ts.length, R, none, none⟩ := by
  induction ts generalizing k st with
  | nil => simpa [runCalls] using ⟨hu, hc⟩
  | cons t ts ih =>
    have hkstep : k < cfg.maxRequests := by
      have := hk
      simp only [List.length_cons] at this
      omega
    have hstep := step_allowed cfg u c t k R st hu hc hkstep (hts t (by simp))
    have hrest := ih (k + 1) (checkRateLimit st u c t cfg).2 hstep.2.1 hstep.2.2
      (by simp only [List.length_cons] at hk; omega)
      (fun t' ht' => hts t' (by simp [ht']))
    refine ⟨?_, ?_, ?_⟩
    · simp only [List.map_cons, runCalls, hstep.1, hrest.1, List.length_cons,
        List.replicate_succ]
    · simp only [List.map_cons, runCalls]
      have := hrest.2.1
      simpa [List.length_cons, Nat.add_comm, Nat.add_assoc, Nat.add_left_comm] using this
    · simp only [List.map_cons, runCalls]
      have := hrest.2.2
      have harith : k + 1 + ts.length = k + (t :: ts).length := by
        simp [List.length_cons]; omega
      rwa [harith] at this

/-- The first call from a fresh user into a fresh chat is allowed and creates
both window entries with `count = 1` and `resetTime = now + timeWindow`. -/
lemma first_call_fresh (cfg : RateLimitConfig) (u : Int) (c : Option Int) (t1 : Int)
    (st0 : RateLimiterState)
    (hu : st0.userLimits u = none)
    (hc : ∀ x, c = some x → x ≠ 0 → st0.chatLimits x = none) :
    (checkRateLimit st0 u c t1 cfg).1 = { isLimited := false } ∧
    (checkRateLimit st0 u c t1 cfg).2.userLimits u =
      some ⟨1, t1 + cfg.timeWindow, none, none⟩ ∧
    chatSync c (checkRateLimit st0 u c t1 cfg).2 ⟨1, t1 + cfg.timeWindow, none, none⟩ := by
  match c with
  | none =>
    refine ⟨?_, ?_, chatSync_none _ _⟩ <;>
      simp [checkRateLimit, checkUserLimit, checkChatLimit, penaltyActive, truthyInt,
        updateUserLimit, updateChatLimit, setUser, setChat, hu]
  | some x =>
    by_cases hx : x = 0
    · subst hx
      refine ⟨?_, ?_, ?_⟩
      · simp [checkRateLimit, checkUserLimit, checkChatLimit, penaltyActive, truthyInt,
          updateUserLimit, updateChatLimit, setUser, setChat, hu]
      · simp [checkRateLimit, checkUserLimit, checkChatLimit, penaltyActive, truthyInt,
          updateUserLimit, updateChatLimit, setUser, setChat, hu]
      · intro y hy hy0
        cases hy
        exact absurd rfl hy0
    · have hcx := hc x rfl hx
      refine ⟨?_, ?_, ?_⟩
      · simp [checkRateLimit, checkUserLimit, checkChatLimit, penaltyActive, truthyInt,
          updateUserLimit, updateChatLimit, setUser, setChat, hu, hcx, hx]
      · simp [checkRateLimit, checkUserLimit, checkChatLimit, penaltyActive, truthyInt,
          updateUserLimit, updateChatLimit, setUser, setChat, hu, hcx, hx]
      · intro y hy hy0
        cases hy
        simp [checkRateLimit, checkUserLimit, checkChatLimit, penaltyActive, truthyInt,
          updateUserLimit, updateChatLimit, setUser, setChat, hu, hcx, hx]

/-- A user at (or above) its cap inside the window, with no penalty stored, is
rejected with reason `rate_limit`. -/
lemma step_violation (cfg : RateLimitConfig) (u : Int) (c : Option Int) (t : Int)
    (k : Nat) (R : Int) (st : RateLimiterState)
    (hu : st.userLimits u = some ⟨k, R, none, none⟩)
    (hk : k ≥ cfg.maxRequests) (ht : t < R) :
    (checkRateLimit st u c t cfg).1 =
      { isLimited := true, remainingTime := some (ceilSeconds (R - t)),
        reason := some "rate_limit" } := by
  simp [checkRateLimit, checkUserLimit, penaltyActive, hu, hk, ht]

/-- C1: with `maxRequests = N ≥ 1` (here `N = mid.length + 1`), a fresh user
(no penalty stored) in a fresh chat (chat counter far below `5N`) gets its
first `N` calls within one window allowed, and the `(N+1)`-th call inside the
same window rejected with reason `rate_limit`. -/
theorem c1_first_n_allowed_then_rate_limited
    (cfg : RateLimitConfig) (u : Int) (c : Option Int) (st0 : RateLimiterState)
    (hu : st0.userLimits u = none)
    (hc : ∀ x, c = some x → x ≠ 0 → st0.chatLimits x = none)
    (t1 : Int) (mid : List Int) (tN : Int)
    (hmid : mid.length + 1 = cfg.maxRequests)
    (hwin : ∀ t ∈ mid, t < t1 + cfg.timeWindow)
    (htN : tN < t1 + cfg.timeWindow) :
    (runCalls cfg st0 ((t1 :: mid).map fun t => ⟨u, c, t⟩)).1 =
      List.replicate cfg.maxRequests { isLimited := false } ∧
    (checkRateLimit (runCalls cfg st0 ((t1 :: mid).map fun t => ⟨u, c, t⟩)).2 u c tN cfg).1 =
      { isLimited := true, remainingTime := some (ceilSeconds (t1 + cfg.timeWindow - tN)),
        reason := some "rate_limit" } := by
  have h1 := first_call_fresh cfg u c t1 st0 hu hc
  have h2 := runCalls_allowed cfg u c mid 1 (t1 + cfg.timeWindow)
    (checkRateLimit st0 u c t1 cfg).2 h1.2.1 h1.2.2 (by omega) hwin
  constructor
  · simp only [List.map_cons, runCalls]
    rw [h1.1, h2.1, ← hmid]
    simp [List.replicate_succ]
  · have hcnt : 1 + mid.length = cfg.maxRequests := by omega
    simp only [List.map_cons, runCalls]
    exact step_violation cfg u c tN (1 + mid.length) (t1 + cfg.timeWindow) _
      h2.2.1 (by omega) htN

/-- Witness for C1 at `N = 2`, window `100`, calls at `0, 10` allowed and the
third at `20` rejected with `rate_limit`. -/
theorem c1_first_n_allowed_then_rate_limited_witness :
    (runCalls ⟨2, 100, some 50, true⟩ emptyState
        (([0, 10] : List Int).map fun t => ⟨7, some 9, t⟩)).1 =
      List.replicate 2 { isLimited := false } ∧
    (checkRateLimit (runCalls ⟨2, 100, some 50, true⟩ emptyState
        (([0, 10] : List Int).map fun t => ⟨7, some 9, t⟩)).2 7 (some 9) 20
        ⟨2, 100, some 50, true⟩).1 =
      { isLimited := true, remainingTime := some (ceilSeconds (0 + 100 - 20)),
        reason := some "rate_limit" } :=
  c1_first_n_allowed_then_rate_limited ⟨2, 100, some 50, true⟩ 7 (some 9) emptyState rfl
    (fun _ _ _ => rfl) 0 [10] 20 (by decide) (by decide) (by decide)

lemma countsPreserved_refl (st : RateLimiterState) : countsPreserved st st :=
  ⟨fun _ => rfl, fun _ => rfl⟩

lemma countsPreserved_bound {n : Nat} {st st' : RateLimiterState}
    (hp : countsPreserved st st') (hb : countsBounded n st) : countsBounded n st' := by
  constructor
  · intro u e he
    have := hp.1 u
    rw [he] at this
    cases hold : st.userLimits u with
    | none => rw [hold] at this; cases this
    | some e' =>
      rw [hold] at this
      simp at this
      have h2 := hb.1 u e' hold
      omega
  · intro c e he
    have := hp.2 c
    rw [he] at this
    cases hold : st.chatLimits c with
    | none => rw [hold] at this; cases this
    | some e' =>
      rw [hold] at this
      simp at this
      have h2 := hb.2 c e' hold
      omega

lemma applyPenalty_preserves (st : RateLimiterState) (u now : Int)
    (cfg : RateLimitConfig) : countsPreserved st (applyPenalty st u now cfg) := by
  unfold applyPenalty
  split
  · exact countsPreserved_refl st
  next e hUL =>
    split
    · refine ⟨fun u' => ?_, fun _ => rfl⟩
      simp only [setUser]
      split
      next h => subst h; rw [hUL]; rfl
      next h => rfl
    · exact countsPreserved_refl st

lemma checkUserLimit_snd_preserves (st : RateLimiterState) (u now : Int)
    (cfg : RateLimitConfig) : countsPreserved st (checkUserLimit st u now cfg).2 := by
  unfold checkUserLimit
  split
  · exact countsPreserved_refl st
  next e hUL =>
    split
    · exact countsPreserved_refl st
    · split
      · split
        · exact applyPenalty_preserves st u now cfg
        · exact countsPreserved_refl st
      · exact countsPreserved_refl st

lemma checkUserLimit_ok_state (st : RateLimiterState) (u now : Int)
    (cfg : RateLimitConfig) (h : (checkUserLimit st u now cfg).1.isLimited = false) :
    (checkUserLimit st u now cfg).2 = st := by
  cases hUL : st.userLimits u with
  | none => simp [checkUserLimit, hUL]
  | some e =>
    by_cases hpen : penaltyActive e now = true
    · simp [checkUserLimit, hUL, hpen] at h
    · by_cases hlim : now < e.resetTime ∧ cfg.maxRequests ≤ e.count
      · exfalso
        simp [checkUserLimit, hUL, hpen, hlim.1, hlim.2] at h
      · simp only [not_and, not_le] at hlim
        by_cases hr : now < e.resetTime
        · simp [checkUserLimit, hUL, hpen, Nat.not_le.mpr (hlim hr)]
        · simp [checkUserLimit, hUL, hpen, hr]

lemma checkUserLimit_ok_guard (st : RateLimiterState) (u now : Int)
    (cfg : RateLimitConfig) (h : (checkUserLimit st u now cfg).1.isLimited = false)
    (e : RateLimitEntry) (he : st.userLimits u = some e) :
    now ≥ e.resetTime ∨ e.count < cfg.maxRequests := by
  by_cases hr : now < e.resetTime
  · by_cases hcnt : cfg.maxRequests ≤ e.count
    · exfalso
      by_cases hpen : penaltyActive e now = true
      · simp [checkUserLimit, he, hpen] at h
      · simp [checkUserLimit, he, hpen, hr, hcnt] at h
    · exact Or.inr (by omega)
  · exact Or.inl (by omega)

lemma checkChatLimit_ok_guard (st : RateLimiterState) (c now : Int)
    (cfg : RateLimitConfig) (h : (checkChatLimit st c now cfg).isLimited = false)
    (e : RateLimitEntry) (he : st.chatLimits c = some e) :
    now ≥ e.resetTime ∨ e.count < cfg.maxRequests * 5 := by
  by_cases hr : now < e.resetTime
  · by_cases hcnt : cfg.maxRequests * 5 ≤ e.count
    · exfalso
      simp [checkChatLimit, he, hr, hcnt] at h
    · exact Or.inr (by omega)
  · exact Or.inl (by omega)

lemma updateUserLimit_bound {n : Nat} {st : RateLimiterState} {u now : Int}
    {cfg : RateLimitConfig} (hn : 1 ≤ n) (hcfg : cfg.maxRequests = n)
    (hb : countsBounded n st)
    (hguard : ∀ e, st.userLimits u = some e → now ≥ e.resetTime ∨ e.count < cfg.maxRequests) :
    countsBounded n (updateUserLimit st u now cfg) := by
  constructor
  · intro u' e' he'
    unfold updateUserLimit at he'
    split at he'
    next hUL =>
      simp only [setUser] at he'
      split at he'
      · cases he'; exact hn
      · exact hb.1 u' e' he'
    next e hUL =>
      split at he'
      · simp only [setUser] at he'
        split at he'
        · cases he'; exact hn
        · exact hb.1 u' e' he'
      next hreset =>
        simp only [setUser] at he'
        split at he'
        next h =>
          cases he'
          have := hguard e hUL
          have hlt : e.count < cfg.maxRequests := by omega
          simp only [hcfg] at hlt
          simpa using hlt
        · exact hb.1 u' e' he'
  · intro c' e' he'
    unfold updateUserLimit at he'
    split at he' <;> [skip; split at he'] <;>
      simp only [setUser] at he' <;> exact hb.2 c' e' he'

lemma updateChatLimit_bound {n : Nat} {st : RateLimiterState} {c now : Int}
    {cfg : RateLimitConfig} (hn : 1 ≤ n) (hcfg : cfg.maxRequests = n)
    (hb : countsBounded n st)
    (hguard : ∀ e, st.chatLimits c = some e →
      now ≥ e.resetTime ∨ e.count < cfg.maxRequests * 5) :
    countsBounded n (updateChatLimit st c now cfg) := by
  constructor
  · intro u' e' he'
    unfold updateChatLimit at he'
    split at he' <;> [skip; split at he'] <;>
      simp only [setChat] at he' <;> exact hb.1 u' e' he'
  · intro c' e' he'
    unfold updateChatLimit at he'
    split at he'
    next hCL =>
      simp only [setChat] at he'
      split at he'
      · cases he'
        show 1 ≤ 5 * n
        omega
      · exact hb.2 c' e' he'
    next e hCL =>
      split at he'
      · simp only [setChat] at he'
        split at he'
        · cases he'
          show 1 ≤ 5 * n
          omega
        · exact hb.2 c' e' he'
      next hreset =>
        simp only [setChat] at he'
        split at he'
        next h =>
          cases he'
          have := hguard e hCL
          have hlt : e.count < cfg.maxRequests * 5 := by omega
          simp only [hcfg] at hlt
          simp only [RateLimitEntry.mk.injEq] at *
          omega
        · exact hb.2 c' e' he'

lemma updateUserLimit_chatLimits (st : RateLimiterState) (u now : Int)
    (cfg : RateLimitConfig) :
    (updateUserLimit st u now cfg).chatLimits = st.chatLimits := by
  unfold updateUserLimit
  split
  · rfl
  · split <;> rfl

lemma checkRateLimit_limited_preserves (st : RateLimiterState) (u : Int)
    (c : Option Int) (t : Int) (cfg : RateLimitConfig)
    (h : (checkRateLimit st u c t cfg).1.isLimited = true) :
    countsPreserved st (checkRateLimit st u c t cfg).2 := by
  by_cases hu : (checkUserLimit st u t cfg).1.isLimited = true
  · have hst : (checkRateLimit st u c t cfg).2 = (checkUserLimit st u t cfg).2 := by
      simp [checkRateLimit, hu]
    rw [hst]
    exact checkUserLimit_snd_preserves st u t cfg
  · have hu' : (checkUserLimit st u t cfg).1.isLimited = false := by
      simpa using hu
    by_cases htr : truthyInt c = true
    · by_cases hcc : (checkChatLimit st c.iget t cfg).isLimited = true
      · have hst : (checkRateLimit st u c t cfg).2 = st := by
          simp [checkRateLimit, hu', htr, hcc]
        rw [hst]
        exact countsPreserved_refl st
      · exfalso
        have hcc' : (checkChatLimit st c.iget t cfg).isLimited = false := by
          simpa using hcc
        simp [checkRateLimit, hu', htr, hcc'] at h
    · exfalso
      simp [checkRateLimit, hu', htr] at h

lemma checkRateLimit_preserves_bound {n : Nat} (hn : 1 ≤ n) {cfg : RateLimitConfig}
    (hcfg : cfg.maxRequests = n) (st : RateLimiterState) (u : Int) (c : Option Int)
    (t : Int) (hb : countsBounded n st) :
    countsBounded n (checkRateLimit st u c t cfg).2 := by
  by_cases hu : (checkUserLimit st u t cfg).1.isLimited = true
  · have hst : (checkRateLimit st u c t cfg).2 = (checkUserLimit st u t cfg).2 := by
      simp [checkRateLimit, hu]
    rw [hst]
    exact countsPreserved_bound (checkUserLimit_snd_preserves st u t cfg) hb
  · have hu' : (checkUserLimit st u t cfg).1.isLimited = false := by
      simpa using hu
    have hb2 : countsBounded n (updateUserLimit st u t cfg) :=
      updateUserLimit_bound hn hcfg hb
        (fun e he => checkUserLimit_ok_guard st u t cfg hu' e he)
    by_cases htr : truthyInt c = true
    · by_cases hcc : (checkChatLimit st c.iget t cfg).isLimited = true
      · have hst : (checkRateLimit st u c t cfg).2 = st := by
          simp [checkRateLimit, hu', htr, hcc]
        rw [hst]
        exact hb
      · have hcc' : (checkChatLimit st c.iget t cfg).isLimited = false := by
          simpa using hcc
        have hst : (checkRateLimit st u c t cfg).2 =
            updateChatLimit (updateUserLimit st u t cfg) c.iget t cfg := by
          simp [checkRateLimit, hu', htr, hcc']
        rw [hst]
        apply updateChatLimit_bound hn hcfg hb2
        intro e he
        rw [updateUserLimit_chatLimits] at he
        exact checkChatLimit_ok_guard st c.iget t cfg hcc' e he
    · have hst : (checkRateLimit st u c t cfg).2 = updateUserLimit st u t cfg := by
        simp [checkRateLimit, hu', htr]
      rw [hst]
      exact hb2

lemma runCalls_bounded {n : Nat} (hn : 1 ≤ n) {cfg : RateLimitConfig}
    (hcfg : cfg.maxRequests = n) (st : RateLimiterState) (trace : List Call)
    (hb : countsBounded n st) : countsBounded n (runCalls cfg st trace).2 := by
  induction trace generalizing st with
  | nil => simpa [runCalls] using hb
  | cons call rest ih =>
    simp only [runCalls]
    exact ih _ (checkRateLimit_preserves_bound hn hcfg st call.userId call.chatId call.now hb)

/-- C9: under one fixed config with `maxRequests = N ≥ 1`, every reachable
state keeps user counts at most `N` and chat counts at most `5N`, and a call
that is limited leaves every stored count unchanged. -/
theorem c9_counts_bounded_and_limited_calls_preserve
    (cfg : RateLimitConfig) (hN : 1 ≤ cfg.maxRequests) :
    (∀ trace : List Call, countsBounded cfg.maxRequests (runCalls cfg emptyState trace).2) ∧
    (∀ (st : RateLimiterState) (u : Int) (c : Option Int) (t : Int),
      countsBounded cfg.maxRequests st →
      (checkRateLimit st u c t cfg).1.isLimited = true →
      countsPreserved st (checkRateLimit st u c t cfg).2) := by
  constructor
  · intro trace
    refine runCalls_bounded hN rfl emptyState trace ⟨?_, ?_⟩ <;>
      (intro a e h; simp [emptyState] at h)
  · intro st u c t _ hlim
    exact checkRateLimit_limited_preserves st u c t cfg hlim

/-- Witness for C9 at `N = 1`: the bound holds after a concrete trace, and a
concrete limited call preserves the stored counts. -/
theorem c9_counts_bounded_witness :
    countsBounded 1 (runCalls ⟨1, 100, none, false⟩ emptyState
      [⟨7, some 9, 0⟩, ⟨7, some 9, 1⟩]).2 ∧
    countsPreserved (runCalls ⟨1, 100, none, false⟩ emptyState [⟨7, some 9, 0⟩]).2
      (checkRateLimit (runCalls ⟨1, 100, none, false⟩ emptyState [⟨7, some 9, 0⟩]).2
        7 (some 9) 1 ⟨1, 100, none, false⟩).2 := by
  have h := c9_counts_bounded_and_limited_calls_preserve ⟨1, 100, none, false⟩ (by decide)
  exact ⟨h.1 [⟨7, some 9, 0⟩, ⟨7, some 9, 1⟩],
    h.2 _ 7 (some 9) 1 (h.1 [⟨7, some 9, 0⟩]) (by decide)⟩

/-- C2 counterexample: with `maxRequests = 1`, window `100`, penalty `10`,
progressive penalties on, user `7` violates at `t = 1` (stored strike count
becomes `1`); a single ordinary allowed call at `t = 150` — not
`clearUserLimit`, not the periodic sweep — erases the stored strike count,
and the next violation at `t = 151` is penalized as a first strike again
(`penaltyExpires = 151 + 10 × 1 = 161`, not `151 + 10 × 2`). -/
theorem c2_counterexample_strikes_dropped_by_window_reset :
    ((runCalls ⟨1, 100, some 10, true⟩ emptyState
        [⟨7, none, 0⟩, ⟨7, none, 1⟩]).2.userLimits 7).bind
      RateLimitEntry.penaltyCount = some 1 ∧
    ((runCalls ⟨1, 100, some 10, true⟩ emptyState
        [⟨7, none, 0⟩, ⟨7, none, 1⟩, ⟨7, none, 150⟩]).2.userLimits 7).bind
      RateLimitEntry.penaltyCount = none ∧
    ((runCalls ⟨1, 100, some 10, true⟩ emptyState
        [⟨7, none, 0⟩, ⟨7, none, 1⟩, ⟨7, none, 150⟩, ⟨7, none, 151⟩]).2.userLimits 7).bind
      RateLimitEntry.penaltyCount = some 1 ∧
    ((runCalls ⟨1, 100, some 10, true⟩ emptyState
        [⟨7, none, 0⟩, ⟨7, none, 1⟩, ⟨7, none, 150⟩, ⟨7, none, 151⟩]).2.userLimits 7).bind
      RateLimitEntry.penaltyExpires = some 161 := by
  refine ⟨?_, ?_, ?_, ?_⟩ <;> rfl

/-- C2 amended: the stored strike count survives only while the entry is not
reset — a violation inside the window with stored strikes `k₀` is rejected
with `rate_limit` and is assigned penalty duration `P × min(k₀ + 1, 5)`
(so within an unbroken run of violations the 6th duration equals the 5th),
but any allowed request at or after `resetTime` reinitializes the entry and
drops the strike count (this is what `updateUserLimit` does, in addition to
the removals by `clearUserLimit` and the periodic sweep). -/
theorem c2_amended_strike_escalation
    (cfg : RateLimitConfig) (P : Int) (hP : cfg.penaltyTime = some P) (hP0 : P ≠ 0)
    (hprog : cfg.useProgressivePenalty = true)
    (st : RateLimiterState) (u : Int) (c : Option Int) (t : Int) (e : RateLimitEntry)
    (he : st.userLimits u = some e) (hpen : penaltyActive e t = false)
    (hwin : t < e.resetTime) (hcnt : cfg.maxRequests ≤ e.count)
    (st' : RateLimiterState) (u' t' : Int) (cfg' : RateLimitConfig) (e' : RateLimitEntry)
    (he' : st'.userLimits u' = some e') (hpen' : penaltyActive e' t' = false)
    (hreset : e'.resetTime ≤ t') :
    (checkRateLimit st u c t cfg).1.reason = some "rate_limit" ∧
    (checkRateLimit st u c t cfg).2.userLimits u = some
      { e with
        penaltyExpires := some (t + P * ((min (e.penaltyCount.getD 0 + 1) 5 : Nat) : Int)),
        penaltyCount := some (e.penaltyCount.getD 0 + 1) } ∧
    (checkRateLimit st' u' none t' cfg').1.isLimited = false ∧
    (checkRateLimit st' u' none t' cfg').2.userLimits u' =
      some { count := 1, resetTime := t' + cfg'.timeWindow } := by
  have htr : truthyInt cfg.penaltyTime = true := by
    simp [truthyInt, hP]
    exact hP0
  have hgoal12 : (checkRateLimit st u c t cfg).1.reason = some "rate_limit" ∧
      (checkRateLimit st u c t cfg).2.userLimits u = some
        { e with
          penaltyExpires := some (t + P * ((min (e.penaltyCount.getD 0 + 1) 5 : Nat) : Int)),
          penaltyCount := some (e.penaltyCount.getD 0 + 1) } := by
    constructor
    · simp [checkRateLimit, checkUserLimit, he, hpen, hwin, hcnt]
    · by_cases h0 : 0 < e.penaltyCount.getD 0
      · simp [checkRateLimit, checkUserLimit, he, hpen, hwin, hcnt, applyPenalty,
          htr, setUser, hP, hprog, truthyInt, hP0, h0]
      · have h00 : e.penaltyCount.getD 0 = 0 := by omega
        simp [checkRateLimit, checkUserLimit, he, hpen, hwin, hcnt, applyPenalty,
          htr, setUser, hP, hprog, truthyInt, hP0, h00]
  refine ⟨hgoal12.1, hgoal12.2, ?_, ?_⟩
  · have hnl : ¬ (t' < e'.resetTime) := not_lt.mpr hreset
    simp [checkRateLimit, checkUserLimit, he', hpen', hnl, truthyInt]
  · have hnl : ¬ (t' < e'.resetTime) := not_lt.mpr hreset
    simp [checkRateLimit, checkUserLimit, he', hpen', hnl, truthyInt,
      updateUserLimit, setUser, hreset]

/-- Witness for the amended C2: a violation by a first-striker at `t = 1`
stores strike `1` and `penaltyExpires = 11`; an allowed call at `t = 150`
resets the entry, dropping the strike count. -/
theorem c2_amended_strike_escalation_witness :
    (checkRateLimit (runCalls ⟨1, 100, some 10, true⟩ emptyState [⟨7, none, 0⟩]).2
        7 none 1 ⟨1, 100, some 10, true⟩).1.reason = some "rate_limit" ∧
    (checkRateLimit (runCalls ⟨1, 100, some 10, true⟩ emptyState [⟨7, none, 0⟩]).2
        7 none 1 ⟨1, 100, some 10, true⟩).2.userLimits 7 =
      some ⟨1, 100, some 11, some 1⟩ ∧
    (checkRateLimit (runCalls ⟨1, 100, some 10, true⟩ emptyState
        [⟨7, none, 0⟩, ⟨7, none, 1⟩]).2 7 none 150
        ⟨1, 100, some 10, true⟩).1.isLimited = false ∧
    (checkRateLimit (runCalls ⟨1, 100, some 10, true⟩ emptyState
        [⟨7, none, 0⟩, ⟨7, none, 1⟩]).2 7 none 150
        ⟨1, 100, some 10, true⟩).2.userLimits 7 = some ⟨1, 250, none, none⟩ :=
  c2_amended_strike_escalation ⟨1, 100, some 10, true⟩ 10 rfl (by decide) rfl
    (runCalls ⟨1, 100, some 10, true⟩ emptyState [⟨7, none, 0⟩]).2 7 none 1
    ⟨1, 100, none, none⟩ rfl rfl (by decide) (by decide)
    (runCalls ⟨1, 100, some 10, true⟩ emptyState [⟨7, none, 0⟩, ⟨7, none, 1⟩]).2 7 150
    ⟨1, 100, some 10, true⟩ ⟨1, 100, some 11, some 1⟩ rfl rfl (by decide)

/-- C3: a `rate_limit` rejection at `t0` for a user with no prior strikes and
`penaltyTime = P > 0` arms a penalty until `t0 + P`; any later call for that
user before `t0 + P` — with any chat, even past the original `resetTime` — is
rejected with reason `penalty` and leaves the limiter state untouched. -/
theorem c3_penalty_blocks_for_p_ms
    (cfg : RateLimitConfig) (P : Int) (hP : cfg.penaltyTime = some P) (hP0 : 0 < P)
    (st : RateLimiterState) (u : Int) (c : Option Int) (t0 : Int) (e : RateLimitEntry)
    (he : st.userLimits u = some e)
    (hstrikes : e.penaltyCount = none) (hnopen : e.penaltyExpires = none)
    (hwin : t0 < e.resetTime) (hcnt : cfg.maxRequests ≤ e.count) (ht0 : 0 ≤ t0)
    (c' : Option Int) (t' : Int) (ht1 : t0 ≤ t') (ht2 : t' < t0 + P) :
    (checkRateLimit st u c t0 cfg).1.reason = some "rate_limit" ∧
    (checkRateLimit (checkRateLimit st u c t0 cfg).2 u c' t' cfg).1 =
      { isLimited := true, remainingTime := some (ceilSeconds (t0 + P - t')),
        reason := some "penalty" } ∧
    (checkRateLimit (checkRateLimit st u c t0 cfg).2 u c' t' cfg).2 =
      (checkRateLimit st u c t0 cfg).2 := by
  have htr : truthyInt (some P) = true := by
    simp [truthyInt]
    omega
  have hpen : penaltyActive e t0 = false := by
    simp [penaltyActive, hnopen]
  have hstate : (checkRateLimit st u c t0 cfg).2.userLimits u =
      some { e with penaltyExpires := some (t0 + P), penaltyCount := some 1 } := by
    simp [checkRateLimit, checkUserLimit, he, hpen, hwin, hcnt, applyPenalty, htr,
      setUser, hP, hstrikes]
  have hpe0 : t0 + P ≠ 0 := by omega
  have hactive : penaltyActive
      { e with penaltyExpires := some (t0 + P), penaltyCount := some 1 } t' = true := by
    simp [penaltyActive, hpe0, ht2]
  obtain ⟨st1, hsteq⟩ : ∃ s, (checkRateLimit st u c t0 cfg).2 = s := ⟨_, rfl⟩
  rw [hsteq] at hstate
  refine ⟨?_, ?_, ?_⟩
  · simp [checkRateLimit, checkUserLimit, he, hpen, hwin, hcnt]
  · rw [hsteq]
    simp [checkRateLimit, checkUserLimit, hstate, hactive]
  · rw [hsteq]
    simp [checkRateLimit, checkUserLimit, hstate, hactive]

/-- Witness for C3: `N = 1`, window `100`, penalty `300`; rejection at
`t0 = 1`, then a call at `t' = 150` — beyond the original `resetTime = 100`
but within the penalty — is rejected with reason `penalty` and the state is
unchanged. -/
theorem c3_penalty_blocks_for_p_ms_witness :
    (checkRateLimit (runCalls ⟨1, 100, some 300, true⟩ emptyState [⟨7, none, 0⟩]).2
        7 none 1 ⟨1, 100, some 300, true⟩).1.reason = some "rate_limit" ∧
    (checkRateLimit (checkRateLimit
        (runCalls ⟨1, 100, some 300, true⟩ emptyState [⟨7, none, 0⟩]).2
        7 none 1 ⟨1, 100, some 300, true⟩).2 7 (some 9) 150
        ⟨1, 100, some 300, true⟩).1 =
      { isLimited := true, remainingTime := some (ceilSeconds (1 + 300 - 150)),
        reason := some "penalty" } ∧
    (checkRateLimit (checkRateLimit
        (runCalls ⟨1, 100, some 300, true⟩ emptyState [⟨7, none, 0⟩]).2
        7 none 1 ⟨1, 100, some 300, true⟩).2 7 (some 9) 150
        ⟨1, 100, some 300, true⟩).2 =
      (checkRateLimit (runCalls ⟨1, 100, some 300, true⟩ emptyState [⟨7, none, 0⟩]).2
        7 none 1 ⟨1, 100, some 300, true⟩).2 :=
  c3_penalty_blocks_for_p_ms ⟨1, 100, some 300, true⟩ 300 rfl (by decide)
    (runCalls ⟨1, 100, some 300, true⟩ emptyState [⟨7, none, 0⟩]).2 7 none 1
    ⟨1, 100, none, none⟩ rfl rfl rfl (by decide) (by decide) (by decide)
    (some 9) 150 (by decide) (by decide)

/-- C4 counterexample: `maxRequests = 1`, so `5N = 5`; five distinct users are
allowed into chat `9` within one window, and the sixth request into that chat
— sent by user `1`, who is at its own per-user cap — is rejected with reason
`rate_limit`, not `chat_limit`: the rejection reason of the `(5N+1)`-th
request does depend on which user sends it. -/
theorem c4_counterexample_capped_sender_gets_rate_limit :
    (runCalls ⟨1, 100, none, false⟩ emptyState
      [⟨1, some 9, 0⟩, ⟨2, some 9, 0⟩, ⟨3, some 9, 0⟩, ⟨4, some 9, 0⟩, ⟨5, some 9, 0⟩]).1 =
      List.replicate 5 { isLimited := false } ∧
    (checkRateLimit (runCalls ⟨1, 100, none, false⟩ emptyState
      [⟨1, some 9, 0⟩, ⟨2, some 9, 0⟩, ⟨3, some 9, 0⟩, ⟨4, some 9, 0⟩, ⟨5, some 9, 0⟩]).2
      1 (some 9) 1 ⟨1, 100, none, false⟩).1.reason = some "rate_limit" ∧
    (checkRateLimit (runCalls ⟨1, 100, none, false⟩ emptyState
      [⟨1, some 9, 0⟩, ⟨2, some 9, 0⟩, ⟨3, some 9, 0⟩, ⟨4, some 9, 0⟩, ⟨5, some 9, 0⟩]).2
      1 (some 9) 1 ⟨1, 100, none, false⟩).1.reason ≠ some "chat_limit" := by
  exact ⟨rfl, rfl, by decide⟩

/-- C4 amended: once the chat's window counter has reached `5 × maxRequests`
with the window still active, the next request into that chat is rejected with
reason `chat_limit` for any sender that passes its own per-user check; a
sender already at its per-user limit is rejected with reason `rate_limit`
instead. -/
theorem c4_amended_chat_limit_for_uncapped_senders
    (cfg : RateLimitConfig) (st : RateLimiterState) (u x t : Int)
    (hx : x ≠ 0) (e : RateLimitEntry) (he : st.chatLimits x = some e)
    (hwin : t < e.resetTime) (hcnt : cfg.maxRequests * 5 ≤ e.count)
    (huser : (checkUserLimit st u t cfg).1.isLimited = false) :
    (checkRateLimit st u (some x) t cfg).1 =
      { isLimited := true, remainingTime := some (ceilSeconds (e.resetTime - t)),
        reason := some "chat_limit" } := by
  simp [checkRateLimit, huser, truthyInt, hx, checkChatLimit, he, hwin, hcnt]

/-- Witness for the amended C4: after five distinct users fill chat `9`'s
counter to `5`, a sixth, fresh user is rejected with `chat_limit`. -/
theorem c4_amended_chat_limit_witness :
    (checkRateLimit (runCalls ⟨1, 100, none, false⟩ emptyState
      [⟨1, some 9, 0⟩, ⟨2, some 9, 0⟩, ⟨3, some 9, 0⟩, ⟨4, some 9, 0⟩, ⟨5, some 9, 0⟩]).2
      6 (some 9) 1 ⟨1, 100, none, false⟩).1 =
      { isLimited := true, remainingTime := some (ceilSeconds (100 - 1)),
        reason := some "chat_limit" } :=
  c4_amended_chat_limit_for_uncapped_senders ⟨1, 100, none, false⟩
    (runCalls ⟨1, 100, none, false⟩ emptyState
      [⟨1, some 9, 0⟩, ⟨2, some 9, 0⟩, ⟨3, some 9, 0⟩, ⟨4, some 9, 0⟩, ⟨5, some 9, 0⟩]).2
    6 9 1 (by decide) ⟨5, 100, none, none⟩ rfl (by decide) (by decide) rfl

/-- C5: `"/chatid@somebot extra args"` routes to the `chatid` handler;
`"/chatid"` and the alias `"/id"` resolve to the same stored handler value;
`"/CHATID"` routes to the same handler as `"/chatid"`; and any message text
not starting with `"/"` makes `routeCommand` return `ignore` — no reply, no
handler. -/
theorem c5_extraction_aliases_case_and_non_commands
    (t : String) (hslash : jsStartsWithSlash t = false) :
    routeHandler (routeCommand defaultRegistry
      { messageText := some "/chatid@somebot extra args",
        chat := some ⟨5, some "group"⟩ }) = some chatIdHandlerId ∧
    (mapGet defaultRegistry "chatid").map CommandRegistration.handler =
      (mapGet defaultRegistry "id").map CommandRegistration.handler ∧
    routeHandler (routeCommand defaultRegistry
      { messageText := some "/CHATID", chat := some ⟨5, some "group"⟩ }) =
    routeHandler (routeCommand defaultRegistry
      { messageText := some "/chatid", chat := some ⟨5, some "group"⟩ }) ∧
    routeCommand defaultRegistry
      { messageText := some t, chat := some ⟨5, some "group"⟩ } = .ignore := by
  refine ⟨by decide, by decide, by decide, ?_⟩
  by_cases ht : t = ""
  · simp [routeCommand, extractCommand, ht]
  · simp [routeCommand, extractCommand, ht, hslash]

/-- Witness for C5 at the non-command text `"plain text"`. -/
theorem c5_extraction_aliases_case_witness :
    routeHandler (routeCommand defaultRegistry
      { messageText := some "/chatid@somebot extra args",
        chat := some ⟨5, some "group"⟩ }) = some chatIdHandlerId ∧
    (mapGet defaultRegistry "chatid").map CommandRegistration.handler =
      (mapGet defaultRegistry "id").map CommandRegistration.handler ∧
    routeHandler (routeCommand defaultRegistry
      { messageText := some "/CHATID", chat := some ⟨5, some "group"⟩ }) =
    routeHandler (routeCommand defaultRegistry
      { messageText := some "/chatid", chat := some ⟨5, some "group"⟩ }) ∧
    routeCommand defaultRegistry
      { messageText := some "plain text", chat := some ⟨5, some "group"⟩ } = .ignore :=
  c5_extraction_aliases_case_and_non_commands "plain text" (by decide)

/-- C7 counterexample: registering `chatid` with alias `id` yields a registry
whose `getRegisteredCommands` lists two entries, not one — alias entries store
the alias in their `command` field, so the de-duplication never merges them. -/
theorem c7_counterexample_alias_listed_separately :
    (registerCommand [] { command := "chatid", handler := 0, aliases := some ["id"] }).toOption.map
      (fun m => (getRegisteredCommands m).length) = some 2 ∧
    (registerCommand [] { command := "chatid", handler := 0, aliases := some ["id"] }).toOption.map
      (fun m => (getRegisteredCommands m).length) ≠ some 1 := by
  exact ⟨rfl, by decide⟩

/-- C7 amended: name and alias are lowercased and slash-stripped before
storage, each alias gets its own map entry sharing the registration's data but
with the alias as its stored `command`, `isCommandRegistered` answers true for
both name and alias — and `getRegisteredCommands` de-duplicates by the stored
`command` field, so a command registered with a distinct alias is listed once
per stored name (twice here), not once. -/
theorem c7_amended_alias_storage_and_listing
    (reg : CommandRegistration) (a : String) (hcmd : reg.command ≠ "")
    (halias : reg.aliases = some [a])
    (hne : normalizeName a ≠ normalizeName reg.command) :
    registerCommand [] reg = .ok
      [(normalizeName reg.command, { reg with command := normalizeName reg.command }),
       (normalizeName a, { reg with command := normalizeName a })] ∧
    isCommandRegistered
      [(normalizeName reg.command, { reg with command := normalizeName reg.command }),
       (normalizeName a, { reg with command := normalizeName a })] reg.command = true ∧
    isCommandRegistered
      [(normalizeName reg.command, { reg with command := normalizeName reg.command }),
       (normalizeName a, { reg with command := normalizeName a })] a = true ∧
    getRegisteredCommands
      [(normalizeName reg.command, { reg with command := normalizeName reg.command }),
       (normalizeName a, { reg with command := normalizeName a })] =
      [{ reg with command := normalizeName reg.command },
       { reg with command := normalizeName a }] := by
  refine ⟨?_, ?_, ?_, ?_⟩
  · simp [registerCommand, hcmd, halias, mapSet, mapHas, Ne.symm hne]
  · simp [isCommandRegistered, mapHas]
  · simp [isCommandRegistered, mapHas]
  · simp [getRegisteredCommands, Ne.symm hne]

/-- Witness for the amended C7 at the `chatid`/`id` pair. -/
theorem c7_amended_alias_storage_witness :
    registerCommand [] { command := "chatid", handler := 0, aliases := some ["id"] } = .ok
      [("chatid", { command := "chatid", handler := 0, aliases := some ["id"] }),
       ("id", { command := "id", handler := 0, aliases := some ["id"] })] ∧
    isCommandRegistered
      [("chatid", { command := "chatid", handler := 0, aliases := some ["id"] }),
       ("id", { command := "id", handler := 0, aliases := some ["id"] })] "chatid" = true ∧
    isCommandRegistered
      [("chatid", { command := "chatid", handler := 0, aliases := some ["id"] }),
       ("id", { command := "id", handler := 0, aliases := some ["id"] })] "id" = true ∧
    getRegisteredCommands
      [("chatid", { command := "chatid", handler := 0, aliases := some ["id"] }),
       ("id", { command := "id", handler := 0, aliases := some ["id"] })] =
      [{ command := "chatid", handler := 0, aliases := some ["id"] },
       { command := "id", handler := 0, aliases := some ["id"] }] :=
  c7_amended_alias_storage_and_listing
    { command := "chatid", handler := 0, aliases := some ["id"] } "id"
    (by decide) rfl (by decide)

/-- C6 counterexample: with rate limiting configured, chat-type and
bot-permission checks off, and `requireAdmin` on, a context with no `from`
user is BLOCKED by the admin step (`checkUserAdminPermissions` fails closed on
the missing user id), not skipped and allowed through; the rate-limiting step
does skip. -/
theorem c6_counterexample_admin_step_blocks_missing_user :
    (SecurityMiddleware.createMiddleware
      { rateLimiting := some ⟨10, 60000, some 300000, true⟩,
        checkBotPermissions := false, validateChatTypes := false,
        allowedChatTypes := none, requireAdmin := true }
      { chat := some ⟨5, some "group"⟩ } 0 emptyState).1 = false ∧
    SecurityMiddleware.checkRateLimit { chat := some ⟨5, some "group"⟩ } 0
      ⟨10, 60000, some 300000, true⟩ emptyState = (false, emptyState) ∧
    SecurityMiddleware.checkAdminPermissions { chat := some ⟨5, some "group"⟩ } = false :=
  ⟨rfl, rfl, rfl⟩

/-- C6 amended: when the incoming context has no `from` user, the
rate-limiting step skips (not blocked, limiter state untouched), but the
admin-requirement step fails closed — `checkUserAdminPermissions` returns
false and, with `requireAdmin` on, the pipeline blocks instead of letting the
request through.  No step crashes: every step is total on such contexts. -/
theorem c6_amended_missing_user_handling
    (ctx : Ctx) (hfrom : ctx.fromUser = none)
    (now : Int) (rateCfg : RateLimitConfig) (st : RateLimiterState)
    (config : SecurityMiddlewareConfig) (hadmin : config.requireAdmin = true) :
    SecurityMiddleware.checkRateLimit ctx now rateCfg st = (false, st) ∧
    SecurityMiddleware.checkAdminPermissions ctx = false ∧
    (SecurityMiddleware.createMiddleware config ctx now st).1 = false := by
  have h1 : ∀ rc, SecurityMiddleware.checkRateLimit ctx now rc st = (false, st) := by
    intro rc
    simp [SecurityMiddleware.checkRateLimit, hfrom]
  have h2 : SecurityMiddleware.checkAdminPermissions ctx = false := by
    simp [SecurityMiddleware.checkAdminPermissions,
      SecurityService.checkUserAdminPermissions, hfrom]
  refine ⟨h1 rateCfg, h2, ?_⟩
  cases hrl : config.rateLimiting with
  | none =>
    simp only [SecurityMiddleware.createMiddleware, hrl, h2, hadmin]
    split <;> simp_all
  | some rc =>
    simp only [SecurityMiddleware.createMiddleware, hrl, h1 rc, h2, hadmin]
    split <;> simp_all

/-- Witness for the amended C6 on a concrete `from`-less group context. -/
theorem c6_amended_missing_user_handling_witness :
    SecurityMiddleware.checkRateLimit { chat := some ⟨5, some "group"⟩ } 0
      ⟨10, 60000, some 300000, true⟩ emptyState = (false, emptyState) ∧
    SecurityMiddleware.checkAdminPermissions { chat := some ⟨5, some "group"⟩ } = false ∧
    (SecurityMiddleware.createMiddleware
      { rateLimiting := some ⟨10, 60000, some 300000, true⟩,
        checkBotPermissions := true, validateChatTypes := true,
        allowedChatTypes := none, requireAdmin := true }
      { chat := some ⟨5, some "group"⟩ } 0 emptyState).1 = false :=
  c6_amended_missing_user_handling { chat := some ⟨5, some "group"⟩ } rfl 0
    ⟨10, 60000, some 300000, true⟩ emptyState
    { rateLimiting := some ⟨10, 60000, some 300000, true⟩,
      checkBotPermissions := true, validateChatTypes := true,
      allowedChatTypes := none, requireAdmin := true } rfl

/-- C8: in a channel, bot status `member` fails the bot-permission check and
`administrator` passes it; and when the membership lookup throws, both the
bot-permission check and the user-admin check resolve to `false` (fail
closed, no exception escapes — the embedded checks are total). -/
theorem c8_channel_status_and_throwing_lookup
    (ctxm : Ctx) (cm bm : Int) (fm : Int → Int → Except Unit ChatMember)
    (hmchat : ctxm.chat = some ⟨cm, some "channel"⟩) (hmc : cm ≠ 0)
    (hmme : ctxm.telegramGetMe = some (.ok bm))
    (hmf : ctxm.telegramGetChatMember = some fm)
    (hmstatus : fm cm bm = .ok ⟨"member"⟩)
    (ctxa : Ctx) (ca ba : Int) (fa : Int → Int → Except Unit ChatMember)
    (hachat : ctxa.chat = some ⟨ca, some "channel"⟩) (hac : ca ≠ 0)
    (hame : ctxa.telegramGetMe = some (.ok ba))
    (haf : ctxa.telegramGetChatMember = some fa)
    (hastatus : fa ca ba = .ok ⟨"administrator"⟩)
    (ctxe : Ctx) (ce ue be : Int) (fe : Int → Int → Except Unit ChatMember)
    (hechat : ctxe.chat = some ⟨ce, some "channel"⟩) (hec : ce ≠ 0)
    (heme : ctxe.telegramGetMe = some (.ok be))
    (hef : ctxe.telegramGetChatMember = some fe)
    (hefrom : ctxe.fromUser = some ⟨ue⟩) (heu : ue ≠ 0)
    (herr : ∀ x y, fe x y = .error ()) :
    SecurityService.checkBotPermissions ctxm = false ∧
    SecurityService.checkBotPermissions ctxa = true ∧
    SecurityService.checkBotPermissions ctxe = false ∧
    SecurityService.checkUserAdminPermissions ctxe none = false := by
  refine ⟨?_, ?_, ?_, ?_⟩
  · simp [SecurityService.checkBotPermissions, SecurityService.checkChannelPermissions,
      SecurityService.getBotInfo, SecurityService.getBotChatMember,
      hmchat, hmc, hmme, hmf, hmstatus]
  · simp [SecurityService.checkBotPermissions, SecurityService.checkChannelPermissions,
      SecurityService.getBotInfo, SecurityService.getBotChatMember,
      hachat, hac, hame, haf, hastatus]
  · simp [SecurityService.checkBotPermissions, SecurityService.checkChannelPermissions,
      SecurityService.getBotInfo, SecurityService.getBotChatMember,
      hechat, hec, heme, hef, herr]
  · simp [SecurityService.checkUserAdminPermissions, SecurityService.getBotChatMember,
      hechat, hec, hef, hefrom, heu, herr]

/-- Witness for C8 on concrete channel contexts. -/
theorem c8_channel_status_and_throwing_lookup_witness :
    SecurityService.checkBotPermissions
      { chat := some ⟨5, some "channel"⟩, telegramGetMe := some (.ok 99),
        telegramGetChatMember := some fun _ _ => .ok ⟨"member"⟩ } = false ∧
    SecurityService.checkBotPermissions
      { chat := some ⟨5, some "channel"⟩, telegramGetMe := some (.ok 99),
        telegramGetChatMember := some fun _ _ => .ok ⟨"administrator"⟩ } = true ∧
    SecurityService.checkBotPermissions
      { chat := some ⟨5, some "channel"⟩, telegramGetMe := some (.ok 99),
        telegramGetChatMember := some fun _ _ => .error (),
        fromUser := some ⟨42⟩ } = false ∧
    SecurityService.checkUserAdminPermissions
      { chat := some ⟨5, some "channel"⟩, telegramGetMe := some (.ok 99),
        telegramGetChatMember := some fun _ _ => .error (),
        fromUser := some ⟨42⟩ } none = false :=
  c8_channel_status_and_throwing_lookup
    { chat := some ⟨5, some "channel"⟩, telegramGetMe := some (.ok 99),
      telegramGetChatMember := some fun _ _ => .ok ⟨"member"⟩ } 5 99
    (fun _ _ => .ok ⟨"member"⟩) rfl (by decide) rfl rfl rfl
    { chat := some ⟨5, some "channel"⟩, telegramGetMe := some (.ok 99),
      telegramGetChatMember := some fun _ _ => .ok ⟨"administrator"⟩ } 5 99
    (fun _ _ => .ok ⟨"administrator"⟩) rfl (by decide) rfl rfl rfl
    { chat := some ⟨5, some "channel"⟩, telegramGetMe := some (.ok 99),
      telegramGetChatMember := some fun _ _ => .error (),
      fromUser := some ⟨42⟩ } 5 42 99
    (fun _ _ => .error ()) rfl (by decide) rfl rfl rfl (by decide)
    (fun _ _ => rfl)

/-- C10: a context with no chat, or a chat without a type, makes both
`validateChatType` (under any allow-list) and `checkBotPermissions` return
`false`; and `checkBotPermissions` also returns `false` for every chat type
outside private/group/supergroup/channel. -/
theorem c10_fail_closed_on_missing_or_unknown_chat
    (ctxn : Ctx) (hn : ctxn.chat = none) (allowedn : Option (List String))
    (ctxt : Ctx) (cht : Chat) (ht : ctxt.chat = some cht) (htt : cht.type = none)
    (allowedt : Option (List String))
    (ctxu : Ctx) (chu : Chat) (tyu : String) (hu : ctxu.chat = some chu)
    (hut : chu.type = some tyu)
    (hunot : tyu ∉ (["private", "group", "supergroup", "channel"] : List String)) :
    SecurityService.validateChatType ctxn allowedn = false ∧
    SecurityService.checkBotPermissions ctxn = false ∧
    SecurityService.validateChatType ctxt allowedt = false ∧
    SecurityService.checkBotPermissions ctxt = false ∧
    SecurityService.checkBotPermissions ctxu = false := by
  simp only [List.mem_cons, List.mem_singleton, List.not_mem_nil, or_false] at hunot
  push_neg at hunot
  obtain ⟨hp, hg, hs, hc⟩ := hunot
  refine ⟨?_, ?_, ?_, ?_, ?_⟩
  · simp [SecurityService.validateChatType, hn]
  · simp [SecurityService.checkBotPermissions, hn]
  · simp [SecurityService.validateChatType, ht, htt]
  · simp [SecurityService.checkBotPermissions, ht, htt]
  · simp [SecurityService.checkBotPermissions, hu, hut, hp, hg, hs, hc]

/-- Witness for C10 on concrete contexts (`none` chat, type-less chat, and
the unknown type `"weird"`). -/
theorem c10_fail_closed_witness :
    SecurityService.validateChatType { chat := none } none = false ∧
    SecurityService.checkBotPermissions { chat := none } = false ∧
    SecurityService.validateChatType { chat := some ⟨5, none⟩ }
      (some ["private", "group"]) = false ∧
    SecurityService.checkBotPermissions { chat := some ⟨5, none⟩ } = false ∧
    SecurityService.checkBotPermissions { chat := some ⟨5, some "weird"⟩ } = false :=
  c10_fail_closed_on_missing_or_unknown_chat { chat := none } rfl none
    { chat := some ⟨5, none⟩ } ⟨5, none⟩ rfl rfl (some ["private", "group"])
    { chat := some ⟨5, some "weird"⟩ } ⟨5, some "weird"⟩ "weird" rfl rfl (by decide)

end Bot
